import Mathlib

/-
Verification of the event-dispatch pipeline and session-readiness waiter of
the whatsapp-api repository (src/utils.js).

The embedding models JavaScript values shallowly and translates the three
relevant functions of src/utils.js:

  * `triggerWebhook`   — the dispatcher (push-channel broadcast with
                         self-origin suppression, webhook POST commented out);
  * `checkIfEventisEnabled` — the event gate (a promise that resolves only
                         when the event is not in `disabledCallbacks`);
  * `waitForNestedObject`   — the readiness waiter (interval polling of a
                         dot-separated nested path).

Machine-level JavaScript details that the claims do not touch (NaN, string
indexing, prototype chains) are outside the model: numbers are integers and
property access on primitive values yields `undefined`, which is accurate
for every key the code reads (`message`, `fromMe`, `id`, `participant`, and
user-chosen path segments on plain data objects).
-/

/-- A JavaScript-like value: `undefined`, `null`, booleans, (integer)
numbers, strings, and objects as association lists of fields. -/
inductive JsVal where
  | undefined
  | null
  | bool (b : Bool)
  | num (n : Int)
  | str (s : String)
  | obj (fields : List (String × JsVal))

/-- JavaScript truthiness: `undefined`, `null`, `false`, `0` and `""` are
falsy; every object (even empty) is truthy. -/
def truthy : JsVal → Bool
  | .undefined => false
  | .null => false
  | .bool b => b
  | .num n => n != 0
  | .str s => s != ""
  | .obj _ => true

/-- Property access `o[k]`, also covering the optional-chaining reads
`o?.k` used in `triggerWebhook`: an object yields its first binding for the
key (or `undefined` when the key is missing); `null`, `undefined` and
primitive values yield `undefined` for the keys the code reads. -/
def jsGet : JsVal → String → JsVal
  | .obj fields, k => ((fields.find? (fun p => p.1 == k)).map (fun p => p.2)).getD .undefined
  | _, _ => .undefined

/-- The fixed first argument of the `console.error` call in the catch
block of `triggerWebhook`. -/
def consoleTag : String := "Failed to send new message webhook:"

/-- One `console.error('Failed to send new message webhook:', sessionId,
dataType, error.message, data || '')` line, kept structured so its
arguments are inspectable. -/
structure LogEntry where
  tag : String
  sessionId : String
  dataType : String
  reason : String
  data : JsVal

/-- Observable outcome of one `triggerWebhook` call: the value broadcast on
the push channel (if any), the console error log, the exception propagated
to the caller (if any), and the outbound HTTP POSTs performed. -/
structure DispatchResult where
  emitted : Option JsVal
  log : List LogEntry
  raised : Option String
  posts : List (String × String × String × JsVal)

/-- The body of the `try` block of `triggerWebhook` in src/utils.js:

    if (!enableWebHook) return;
    if (data?.message) {
      if (data?.message?.fromMe) return;
      if (data?.message?.id?.participant) return;
      io.emit('paip', data.message);
    }

`enableWebHook` is the truthiness of the WEBHOOK_SOCKET_PORT environment
variable. `emitError` models the environment: `some e` means the external
`io.emit` broadcast throws with message `e`, `none` means it succeeds.
Returns the emitted value or the thrown error. -/
def triggerWebhookBody (enableWebHook : Bool) (emitError : Option String)
    (data : JsVal) : Except String (Option JsVal) :=
  if !enableWebHook then .ok none
  else if truthy (jsGet data "message") then
    if truthy (jsGet (jsGet data "message") "fromMe") then .ok none
    else if truthy (jsGet (jsGet (jsGet data "message") "id") "participant") then .ok none
    else
      match emitError with
      | some e => .error e
      | none => .ok (some (jsGet data "message"))
  else .ok none

/-- `triggerWebhook(webhookURL, sessionId, dataType, data)` from
src/utils.js: the try body wrapped in the catch that logs
`console.error('Failed to send new message webhook:', sessionId, dataType,
error.message, data || '')` and swallows the error. The axios POST to
`webhookURL` is commented out in the source, so no code path performs an
HTTP POST (`posts` is always empty) and `webhookURL` is unused. -/
def triggerWebhook (enableWebHook : Bool) (emitError : Option String)
    (webhookURL sessionId dataType : String) (data : JsVal) : DispatchResult :=
  match triggerWebhookBody enableWebHook emitError data with
  | .ok em => ⟨em, [], none, []⟩
  | .error e =>
      ⟨none, [⟨consoleTag, sessionId, dataType, e,
               if truthy data then data else .str ""⟩], none, []⟩

/-- What the connected socket sinks receive from one dispatch: `io.emit`
broadcasts the emitted value to every currently connected sink once. -/
def deliveredTo (sinks : List String) (r : DispatchResult) : List (String × JsVal) :=
  match r.emitted with
  | some v => sinks.map (fun s => (s, v))
  | none => []

/-- The settlement state of a JavaScript promise as observed by a caller. -/
inductive PromiseOutcome where
  | resolved
  | rejected
  | pending
  deriving DecidableEq

/-- `checkIfEventisEnabled(event)` from src/utils.js:

    return new Promise((resolve, reject) => {
      if (!disabledCallbacks.includes(event)) { resolve() } })

The executor runs synchronously; it calls `resolve()` exactly when the
event is not in `disabledCallbacks` and otherwise calls neither `resolve`
nor `reject`, leaving the promise pending forever. -/
def checkIfEventisEnabled (disabledCallbacks : List String) (event : String) :
    PromiseOutcome :=
  if !(disabledCallbacks.contains event) then .resolved else .pending

/-- Modelled from the spec: the session event wiring that composes the gate
with the dispatcher is not under src/ (it lives in the sessions module, of
which only callers of utils.js are visible). Per the spec's dispatch
pipeline, the wiring awaits `checkIfEventisEnabled(eventKind)` and only
then invokes `triggerWebhook`; since a pending promise never settles, the
continuation never runs for a disabled kind and nothing is dispatched,
logged or raised. -/
def dispatchPipeline (disabledCallbacks : List String) (enableWebHook : Bool)
    (emitError : Option String) (webhookURL sessionId event : String)
    (data : JsVal) : DispatchResult :=
  match checkIfEventisEnabled disabledCallbacks event with
  | .resolved => triggerWebhook enableWebHook emitError webhookURL sessionId event data
  | _ => ⟨none, [], none, []⟩

/-- JavaScript `nestedPath.split('.')`: splitting the character list on the
dot matches the semantics of `String.prototype.split` with a one-character
separator (empty segments included, `"".split('.') = [""]`). -/
def splitOnDot (s : String) : List String :=
  (s.toList.splitOn '.').map (fun cs => String.mk cs)

/-- One poll tick's path walk in `waitForNestedObject`:

    nestedPath.split('.').reduce((obj, key) => obj ? obj[key] : undefined, rootObj)

The path is re-split and re-walked from the root on every call. -/
def waitCheck (rootObj : JsVal) (nestedPath : String) : JsVal :=
  (splitOnDot nestedPath).foldl
    (fun obj key => if truthy obj then jsGet obj key else .undefined) rootObj

/-- The fixed message of the Error with which `waitForNestedObject`
rejects: `reject(new Error('Timeout waiting for nested object'))`. -/
def timeoutMessage : String := "Timeout waiting for nested object"

/-- Outcome of a `waitForNestedObject` call, with the tick index at which
the promise settled (tick `k` occurs at elapsed time `k * interval`). -/
inductive WaitResult where
  | resolved (tick : Nat)
  | timedOut (tick : Nat) (errMsg : String)
  deriving DecidableEq

/-- The `checkObject` polling loop of `waitForNestedObject`, one
constructor of recursion per scheduled tick:

    const checkObject = () => {
      const nestedObj = nestedPath.split('.').reduce(..., rootObj)
      if (nestedObj) { resolve() }
      else if (Date.now() - start > maxWaitTime) { reject(new Error(...)) }
      else { setTimeout(checkObject, interval) }
    }

`roots k` is the (externally mutable) root object as seen at tick `k`;
elapsed time at tick `k` is modelled as `k * interval` (`setTimeout` never
fires early, so the real elapsed time is at least the modelled one). The
`fuel` argument bounds how many ticks may be examined; any fuel larger
than the tick of settlement yields the settled outcome. -/
def waitAux (roots : Nat → JsVal) (nestedPath : String)
    (maxWaitTime interval : Nat) : Nat → Nat → Option WaitResult
  | _, 0 => none
  | k, fuel + 1 =>
    if truthy (waitCheck (roots k) nestedPath) then some (.resolved k)
    else if maxWaitTime < k * interval then some (.timedOut k timeoutMessage)
    else waitAux roots nestedPath maxWaitTime interval (k + 1) fuel

/-- `waitForNestedObject(rootObj, nestedPath, maxWaitTime, interval)` from
src/utils.js (defaults in the source: maxWaitTime = 10000, interval = 100):
the polling loop started at tick 0. -/
def waitForNestedObject (roots : Nat → JsVal) (nestedPath : String)
    (maxWaitTime interval fuel : Nat) : Option WaitResult :=
  waitAux roots nestedPath maxWaitTime interval 0 fuel

-- ===================================================================
-- Helper lemmas (shared)
-- ===================================================================

/-- Counting deliveries addressed to one sink in a broadcast list. -/
theorem countP_broadcast (sinks : List String) (v : JsVal) (s : String) :
    ((sinks.map (fun t => (t, v))).countP (fun p => p.1 == s)) = sinks.count s := by
  rw [List.countP_map, List.count]
  rfl

/-- Every value in a broadcast list is the broadcast value. -/
theorem broadcast_value (sinks : List String) (v : JsVal) (p : String × JsVal)
    (h : p ∈ sinks.map (fun t => (t, v))) : p.2 = v := by
  simp only [List.mem_map] at h
  obtain ⟨t, _, rfl⟩ := h
  rfl

/-- A self-originated message (truthy `fromMe`, or a truthy
`id.participant` marker) makes the try body return before the emit, on
every configuration. -/
theorem triggerWebhookBody_echo_none (enableWebHook : Bool)
    (emitError : Option String) (data : JsVal)
    (h : truthy (jsGet (jsGet data "message") "fromMe") = true ∨
         truthy (jsGet (jsGet (jsGet data "message") "id") "participant") = true) :
    triggerWebhookBody enableWebHook emitError data = .ok none := by
  unfold triggerWebhookBody
  cases enableWebHook with
  | false => rfl
  | true =>
    by_cases hm : truthy (jsGet data "message") = true
    · rcases h with h | h
      · simp [hm, h]
      · by_cases hf : truthy (jsGet (jsGet data "message") "fromMe") = true
        · simp [hm, hf]
        · simp [hm, hf, h]
    · simp [hm]

/-- The polling loop resolves at tick `K` when the walk is first truthy
there and every earlier tick was falsy and within the deadline. -/
theorem waitAux_resolves (roots : Nat → JsVal) (nestedPath : String)
    (maxWaitTime interval K : Nat)
    (htr : truthy (waitCheck (roots K) nestedPath) = true)
    (hbefore : ∀ j, j < K →
      truthy (waitCheck (roots j) nestedPath) = false ∧ j * interval ≤ maxWaitTime) :
    ∀ fuel k, k ≤ K → K - k < fuel →
      waitAux roots nestedPath maxWaitTime interval k fuel = some (.resolved K) := by
  intro fuel
  induction fuel with
  | zero => intro k _ hlt; omega
  | succ n ih =>
    intro k hk hlt
    rcases Nat.lt_or_ge k K with hkK | hkK
    · obtain ⟨hfalse, hdead⟩ := hbefore k hkK
      unfold waitAux
      rw [hfalse]
      simp only [Bool.false_eq_true, if_false]
      rw [if_neg (by omega)]
      exact ih (k + 1) (by omega) (by omega)
    · have hkeq : k = K := by omega
      subst hkeq
      unfold waitAux
      rw [htr]
      simp

/-- The polling loop rejects at the first tick `K` past the deadline when
the walk is falsy at every tick up to `K`. -/
theorem waitAux_times_out (roots : Nat → JsVal) (nestedPath : String)
    (maxWaitTime interval K : Nat)
    (hK : maxWaitTime < K * interval)
    (hprev : ∀ j, j < K → j * interval ≤ maxWaitTime)
    (hfalsy : ∀ j, j ≤ K → truthy (waitCheck (roots j) nestedPath) = false) :
    ∀ fuel k, k ≤ K → K - k < fuel →
      waitAux roots nestedPath maxWaitTime interval k fuel =
        some (.timedOut K timeoutMessage) := by
  intro fuel
  induction fuel with
  | zero => intro k _ hlt; omega
  | succ n ih =>
    intro k hk hlt
    have hfalse := hfalsy k hk
    rcases Nat.lt_or_ge k K with hkK | hkK
    · unfold waitAux
      rw [hfalse]
      simp only [Bool.false_eq_true, if_false]
      rw [if_neg (by exact Nat.not_lt.mpr (hprev k hkK))]
      exact ih (k + 1) (by omega) (by omega)
    · have hkeq : k = K := by omega
      subst hkeq
      unfold waitAux
      rw [hfalse]
      simp only [Bool.false_eq_true, if_false]
      rw [if_pos hK]

-- ===================================================================
-- C1: dispatch delivers the payload to every sink exactly once
-- ===================================================================

/-- C1 counterexample: with an empty disabled set, an active transport and
one connected sink, dispatching the spec's scenario-B payload
`{fromMe:false, body:"hi"}` (not self-originated: `fromMe` is falsy and no
participant marker) delivers to zero sinks — the dispatcher only ever
broadcasts `payload.message`, and this payload has no `message` field, so
the claim "delivers the payload to every registered sink exactly once" is
false at this input. -/
theorem dispatch_scenarioB_bare_payload_dropped :
    ([] : List String).contains "message" = false ∧
    truthy (jsGet (JsVal.obj [("fromMe", JsVal.bool false), ("body", JsVal.str "hi")])
      "fromMe") = false ∧
    jsGet (jsGet (JsVal.obj [("fromMe", JsVal.bool false), ("body", JsVal.str "hi")])
      "id") "participant" = JsVal.undefined ∧
    deliveredTo ["sink1"]
      (dispatchPipeline [] true none "http://hook" "s1" "message"
        (JsVal.obj [("fromMe", JsVal.bool false), ("body", JsVal.str "hi")])) = [] :=
  ⟨rfl, rfl, rfl, rfl⟩

/-- C1 (amended): for an event kind not in the disabled set, an active
transport, a successful broadcast, and a payload whose `message` field is
truthy and not self-originated (falsy `fromMe`, no participant marker), the
pipeline delivers `payload.message` — the raw domain message, not the
payload wrapper — to every currently registered sink exactly once. -/
theorem dispatch_delivers_message_to_each_sink_once
    (disabledCallbacks : List String) (webhookURL sessionId event : String)
    (data : JsVal) (sinks : List String) (s : String)
    (hgate : disabledCallbacks.contains event = false)
    (hmsg : truthy (jsGet data "message") = true)
    (hfromMe : truthy (jsGet (jsGet data "message") "fromMe") = false)
    (hpart : truthy (jsGet (jsGet (jsGet data "message") "id") "participant") = false)
    (hsink : s ∈ sinks) (hnodup : sinks.Nodup) :
    ((deliveredTo sinks
        (dispatchPipeline disabledCallbacks true none webhookURL sessionId event data)).countP
      (fun p => p.1 == s)) = 1 ∧
    ∀ p ∈ deliveredTo sinks
        (dispatchPipeline disabledCallbacks true none webhookURL sessionId event data),
      p.2 = jsGet data "message" := by
  have hres : dispatchPipeline disabledCallbacks true none webhookURL sessionId event data =
      ⟨some (jsGet data "message"), [], none, []⟩ := by
    unfold dispatchPipeline checkIfEventisEnabled
    rw [hgate]
    unfold triggerWebhook triggerWebhookBody
    simp [hmsg, hfromMe, hpart]
  rw [hres]
  constructor
  · rw [show deliveredTo sinks ⟨some (jsGet data "message"), [], none, []⟩ =
        sinks.map (fun t => (t, jsGet data "message")) from rfl]
    rw [countP_broadcast]
    exact List.count_eq_one_of_mem hnodup hsink
  · intro p hp
    exact broadcast_value sinks (jsGet data "message") p hp

/-- C1 witness: the amended theorem at a concrete enabled, inbound message
payload with one registered sink. -/
theorem dispatch_delivers_message_witness :
    ((deliveredTo ["sinkA"]
        (dispatchPipeline [] true none "http://hook" "s1" "message"
          (JsVal.obj [("message",
            JsVal.obj [("body", JsVal.str "hi"), ("fromMe", JsVal.bool false)])]))).countP
      (fun p => p.1 == "sinkA")) = 1 ∧
    ∀ p ∈ deliveredTo ["sinkA"]
        (dispatchPipeline [] true none "http://hook" "s1" "message"
          (JsVal.obj [("message",
            JsVal.obj [("body", JsVal.str "hi"), ("fromMe", JsVal.bool false)])])),
      p.2 = jsGet (JsVal.obj [("message",
        JsVal.obj [("body", JsVal.str "hi"), ("fromMe", JsVal.bool false)])]) "message" :=
  dispatch_delivers_message_to_each_sink_once [] "http://hook" "s1" "message"
    (JsVal.obj [("message",
      JsVal.obj [("body", JsVal.str "hi"), ("fromMe", JsVal.bool false)])])
    ["sinkA"] "sinkA" rfl rfl rfl rfl (by simp) (by simp)

-- ===================================================================
-- C2: self-originated messages are suppressed
-- ===================================================================

/-- C2: a message payload authored by the session's own identity (truthy
`fromMe`) or carrying a participant echo marker is delivered to zero sinks,
with no error raised and nothing logged, on every configuration and for
every event kind argument (the dispatcher never consults the kind). -/
theorem dispatch_suppresses_self_origin
    (enableWebHook : Bool) (emitError : Option String)
    (webhookURL sessionId dataType : String) (data : JsVal) (sinks : List String)
    (h : truthy (jsGet (jsGet data "message") "fromMe") = true ∨
         truthy (jsGet (jsGet (jsGet data "message") "id") "participant") = true) :
    deliveredTo sinks
      (triggerWebhook enableWebHook emitError webhookURL sessionId dataType data) = [] ∧
    (triggerWebhook enableWebHook emitError webhookURL sessionId dataType data).raised
      = none ∧
    (triggerWebhook enableWebHook emitError webhookURL sessionId dataType data).log
      = [] := by
  have hbody := triggerWebhookBody_echo_none enableWebHook emitError data h
  unfold triggerWebhook
  rw [hbody]
  exact ⟨rfl, rfl, rfl⟩

/-- C2 witness: a concrete `fromMe = true` message payload on an active
transport with one sink is dropped silently. -/
theorem dispatch_suppresses_self_origin_witness :
    deliveredTo ["sinkB"]
      (triggerWebhook true none "http://hook" "s1" "message"
        (JsVal.obj [("message",
          JsVal.obj [("fromMe", JsVal.bool true), ("body", JsVal.str "x")])])) = [] ∧
    (triggerWebhook true none "http://hook" "s1" "message"
        (JsVal.obj [("message",
          JsVal.obj [("fromMe", JsVal.bool true), ("body", JsVal.str "x")])])).raised
      = none ∧
    (triggerWebhook true none "http://hook" "s1" "message"
        (JsVal.obj [("message",
          JsVal.obj [("fromMe", JsVal.bool true), ("body", JsVal.str "x")])])).log
      = [] :=
  dispatch_suppresses_self_origin true none "http://hook" "s1" "message"
    (JsVal.obj [("message",
      JsVal.obj [("fromMe", JsVal.bool true), ("body", JsVal.str "x")])])
    ["sinkB"] (Or.inl rfl)

-- ===================================================================
-- C3: disabled event kinds deliver to zero sinks
-- ===================================================================

/-- C3: for an event kind in the disabled set, the pipeline delivers to
zero sinks regardless of the payload's origin or shape — the gate's promise
stays pending, so the dispatcher is never reached. -/
theorem dispatch_disabled_kind_delivers_nothing
    (disabledCallbacks : List String) (enableWebHook : Bool)
    (emitError : Option String) (webhookURL sessionId event : String)
    (data : JsVal) (sinks : List String)
    (h : disabledCallbacks.contains event = true) :
    deliveredTo sinks
      (dispatchPipeline disabledCallbacks enableWebHook emitError webhookURL
        sessionId event data) = [] := by
  unfold dispatchPipeline checkIfEventisEnabled
  rw [h]
  rfl

/-- C3 witness: the spec's scenario A — disabled set {"presence"},
dispatching a "presence" event delivers nothing, even for a clean inbound
message-shaped payload on an active transport. -/
theorem dispatch_disabled_kind_witness :
    deliveredTo ["sinkC"]
      (dispatchPipeline ["presence"] true none "http://hook" "s1" "presence"
        (JsVal.obj [("message",
          JsVal.obj [("fromMe", JsVal.bool false), ("body", JsVal.str "hi")])])) = [] :=
  dispatch_disabled_kind_delivers_nothing ["presence"] true none "http://hook" "s1"
    "presence"
    (JsVal.obj [("message",
      JsVal.obj [("fromMe", JsVal.bool false), ("body", JsVal.str "hi")])])
    ["sinkC"] rfl

-- ===================================================================
-- C4: waiter resolves when the nested field becomes present
-- ===================================================================

/-- C4 counterexample: with `root = {a: false}` and path `"a"`, the walk
reaches a non-absent value (neither `undefined` nor `null`) at every tick
from tick 0, yet the waiter does not resolve — it polls until the deadline
and times out, because the source resolves only on a truthy value
(`if (nestedObj) { resolve() }`). -/
theorem waiter_nonabsent_falsy_not_resolved :
    waitCheck (JsVal.obj [("a", JsVal.bool false)]) "a" ≠ JsVal.undefined ∧
    waitCheck (JsVal.obj [("a", JsVal.bool false)]) "a" ≠ JsVal.null ∧
    waitForNestedObject (fun _ => JsVal.obj [("a", JsVal.bool false)]) "a" 200 100 10 =
      some (WaitResult.timedOut 3 timeoutMessage) :=
  ⟨fun h => JsVal.noConfusion h, fun h => JsVal.noConfusion h, by decide⟩

/-- C4 (amended): the waiter resolves at the first poll tick at which the
field reached by walking the dot-separated path off the root evaluates to a
truthy value (non-absent but falsy values such as `false`, `0` or `""` are
treated as still not present); at every earlier tick — including ticks
where an intermediate key of the path is absent, which is not an error —
polling simply continues, the path being re-walked fresh from the (possibly
replaced) root on every tick. -/
theorem waiter_resolves_at_first_truthy_tick
    (roots : Nat → JsVal) (nestedPath : String)
    (maxWaitTime interval K fuel : Nat)
    (htr : truthy (waitCheck (roots K) nestedPath) = true)
    (hbefore : ∀ j, j < K →
      truthy (waitCheck (roots j) nestedPath) = false ∧ j * interval ≤ maxWaitTime)
    (hfuel : K < fuel) :
    waitForNestedObject roots nestedPath maxWaitTime interval fuel =
      some (WaitResult.resolved K) :=
  waitAux_resolves roots nestedPath maxWaitTime interval K htr hbefore fuel 0
    (Nat.zero_le K) (by omega)

/-- C4 witness: the spec's scenario C — `root = {a:{}}`, path `"a.b.c"`;
from tick 3 (t = 300ms) an external actor has set `root.a.b = {c:1}`; with
maxWait = 1000 and interval = 100 the wait resolves at tick 3. At ticks
0–2 the intermediate key `b` is absent and polling continues without
error. -/
theorem waiter_resolves_witness :
    waitForNestedObject
      (fun k => if k < 3 then JsVal.obj [("a", JsVal.obj [])]
        else JsVal.obj [("a", JsVal.obj [("b", JsVal.obj [("c", JsVal.num 1)])])])
      "a.b.c" 1000 100 12 = some (WaitResult.resolved 3) :=
  waiter_resolves_at_first_truthy_tick
    (fun k => if k < 3 then JsVal.obj [("a", JsVal.obj [])]
      else JsVal.obj [("a", JsVal.obj [("b", JsVal.obj [("c", JsVal.num 1)])])])
    "a.b.c" 1000 100 3 12 (by decide)
    (by intro j hj; interval_cases j <;> exact ⟨by decide, by decide⟩)
    (by decide)

-- ===================================================================
-- C5: waiter timeout behaviour
-- ===================================================================

/-- C5 counterexample: the rejection Error's message is the fixed string
`'Timeout waiting for nested object'` — two waits with different paths and
different deadlines reject with the identical message, so the error carries
neither the path nor the elapsed duration. -/
theorem waiter_timeout_error_fixed_message :
    waitForNestedObject (fun _ => JsVal.obj []) "x.y" 200 100 10 =
      some (WaitResult.timedOut 3 "Timeout waiting for nested object") ∧
    waitForNestedObject (fun _ => JsVal.obj []) "some.other.path" 500 100 10 =
      some (WaitResult.timedOut 6 "Timeout waiting for nested object") := by
  decide

/-- C5 (amended): if the walked field is falsy at every tick up to the
first tick `K` strictly past the deadline, the waiter rejects exactly at
tick `K` with an Error carrying the fixed message `'Timeout waiting for
nested object'` (not the path or the elapsed duration); the elapsed time at
failure exceeds `maxWaitTime` (hence is ≥ it), and no poll beyond tick `K`
is ever attempted: the outcome is the same for every sufficiently large
fuel bound. -/
theorem waiter_times_out_past_deadline
    (roots : Nat → JsVal) (nestedPath : String)
    (maxWaitTime interval K fuel : Nat)
    (hfalsy : ∀ j, j ≤ K → truthy (waitCheck (roots j) nestedPath) = false)
    (hK : maxWaitTime < K * interval)
    (hprev : ∀ j, j < K → j * interval ≤ maxWaitTime)
    (hfuel : K < fuel) :
    waitForNestedObject roots nestedPath maxWaitTime interval fuel =
      some (WaitResult.timedOut K timeoutMessage) ∧
    maxWaitTime ≤ K * interval :=
  ⟨waitAux_times_out roots nestedPath maxWaitTime interval K hK hprev hfalsy fuel 0
      (Nat.zero_le K) (by omega),
    Nat.le_of_lt hK⟩

/-- C5 witness: the spec's scenario D — `root = {}`, path `"x.y"`,
maxWait = 200, interval = 100: the field never appears, the wait rejects at
tick 3 (t = 300ms > 200ms) with the fixed timeout message. -/
theorem waiter_times_out_witness :
    waitForNestedObject (fun _ => JsVal.obj []) "x.y" 200 100 10 =
      some (WaitResult.timedOut 3 timeoutMessage) ∧
    (200 : Nat) ≤ 3 * 100 :=
  waiter_times_out_past_deadline (fun _ => JsVal.obj []) "x.y" 200 100 3 10
    (by intro j hj; rfl) (by decide) (by intro j hj; omega) (by decide)

-- ===================================================================
-- C6: the event gate returns a boolean
-- ===================================================================

/-- C6 counterexample: for a disabled event kind the gate does not return
`false` — it returns a promise that is neither resolved nor rejected, i.e.
one that never settles, so a caller never receives any answer at all. -/
theorem checkIfEventisEnabled_no_false_answer :
    checkIfEventisEnabled ["presence"] "presence" = PromiseOutcome.pending ∧
    checkIfEventisEnabled ["presence"] "presence" ≠ PromiseOutcome.resolved ∧
    checkIfEventisEnabled ["presence"] "presence" ≠ PromiseOutcome.rejected := by
  decide

/-- C6 (amended): `checkIfEventisEnabled` returns a promise, not a boolean:
for every eventKind not in the disabled set — including any unrecognized
eventKind, which is thereby treated as enabled by default — the promise
resolves; for eventKinds in the disabled set the promise never settles
(neither resolves nor rejects), so no negative answer is ever produced; the
promise never rejects on any input. -/
theorem checkIfEventisEnabled_gate_behaviour
    (disabledCallbacks : List String) (event : String) :
    (disabledCallbacks.contains event = false →
      checkIfEventisEnabled disabledCallbacks event = PromiseOutcome.resolved) ∧
    (disabledCallbacks.contains event = true →
      checkIfEventisEnabled disabledCallbacks event = PromiseOutcome.pending) ∧
    checkIfEventisEnabled disabledCallbacks event ≠ PromiseOutcome.rejected := by
  unfold checkIfEventisEnabled
  refine ⟨fun h => by rw [h]; decide, fun h => by rw [h]; decide, ?_⟩
  cases h : disabledCallbacks.contains event <;> decide

/-- C6 witness: an eventKind absent from the disabled set (an unrecognized
kind) resolves; a disabled kind is left pending. -/
theorem checkIfEventisEnabled_gate_behaviour_witness :
    checkIfEventisEnabled ["presence"] "brand-new-event" = PromiseOutcome.resolved ∧
    checkIfEventisEnabled ["presence", "ack"] "ack" = PromiseOutcome.pending :=
  ⟨(checkIfEventisEnabled_gate_behaviour ["presence"] "brand-new-event").1 (by decide),
    (checkIfEventisEnabled_gate_behaviour ["presence", "ack"] "ack").2.1 (by decide)⟩

-- ===================================================================
-- C9: disabled kinds leave the gate promise forever pending
-- ===================================================================

/-- C9: the promise returned by `checkIfEventisEnabled` is pending — never
resolved, never rejected — exactly when the event is in the disabled set,
and resolved exactly when it is not: a caller awaiting a disabled kind is
suspended forever rather than given a negative answer. -/
theorem checkIfEventisEnabled_pending_iff_disabled
    (disabledCallbacks : List String) (event : String) :
    (checkIfEventisEnabled disabledCallbacks event = PromiseOutcome.pending ↔
      disabledCallbacks.contains event = true) ∧
    (checkIfEventisEnabled disabledCallbacks event = PromiseOutcome.resolved ↔
      disabledCallbacks.contains event = false) := by
  unfold checkIfEventisEnabled
  cases h : disabledCallbacks.contains event <;> decide

/-- C9 witness: a concrete disabled kind is left pending. -/
theorem checkIfEventisEnabled_pending_witness :
    checkIfEventisEnabled ["message_ack", "media"] "media" = PromiseOutcome.pending :=
  (checkIfEventisEnabled_pending_iff_disabled ["message_ack", "media"] "media").1.mpr
    (by decide)

-- ===================================================================
-- C7: dispatch never raises; delivery failures are logged and swallowed
-- ===================================================================

/-- C7: for every input — including the case where the broadcast to the
sinks throws — `triggerWebhook` propagates no error to its caller; when the
try body throws, the failure is logged as a single console line carrying
the sessionId, the event kind (dataType) and the failure reason, then
swallowed. -/
theorem triggerWebhook_never_raises
    (enableWebHook : Bool) (emitError : Option String)
    (webhookURL sessionId dataType : String) (data : JsVal) :
    (triggerWebhook enableWebHook emitError webhookURL sessionId dataType data).raised
      = none ∧
    ∀ e, triggerWebhookBody enableWebHook emitError data = Except.error e →
      (triggerWebhook enableWebHook emitError webhookURL sessionId dataType data).log =
        [⟨consoleTag, sessionId, dataType, e,
          if truthy data then data else JsVal.str ""⟩] := by
  constructor
  · unfold triggerWebhook
    cases hbody : triggerWebhookBody enableWebHook emitError data with
    | ok em => rfl
    | error e => rfl
  · intro e he
    unfold triggerWebhook
    rw [he]

/-- C7 witness: a concrete dispatch whose broadcast throws
"ECONNRESET" raises nothing and logs the sessionId, event kind and
reason. -/
theorem triggerWebhook_never_raises_witness :
    (triggerWebhook true (some "ECONNRESET") "http://hook" "s1" "message"
      (JsVal.obj [("message", JsVal.obj [("body", JsVal.str "hi")])])).raised = none ∧
    (triggerWebhook true (some "ECONNRESET") "http://hook" "s1" "message"
      (JsVal.obj [("message", JsVal.obj [("body", JsVal.str "hi")])])).log =
      [⟨consoleTag, "s1", "message", "ECONNRESET",
        JsVal.obj [("message", JsVal.obj [("body", JsVal.str "hi")])]⟩] :=
  ⟨(triggerWebhook_never_raises true (some "ECONNRESET") "http://hook" "s1" "message"
      (JsVal.obj [("message", JsVal.obj [("body", JsVal.str "hi")])])).1,
    (triggerWebhook_never_raises true (some "ECONNRESET") "http://hook" "s1" "message"
      (JsVal.obj [("message", JsVal.obj [("body", JsVal.str "hi")])])).2
      "ECONNRESET" rfl⟩

-- ===================================================================
-- C8: absent transport configuration is a silent no-op
-- ===================================================================

/-- C8: with the push transport not active (WEBHOOK_SOCKET_PORT unset, so
`enableWebHook` is falsy), `triggerWebhook` returns immediately: zero
deliveries, nothing raised, nothing logged, for every payload, every sink
list and even a failing broadcast environment. -/
theorem triggerWebhook_noop_without_port
    (emitError : Option String) (webhookURL sessionId dataType : String)
    (data : JsVal) (sinks : List String) :
    deliveredTo sinks
      (triggerWebhook false emitError webhookURL sessionId dataType data) = [] ∧
    (triggerWebhook false emitError webhookURL sessionId dataType data).raised = none ∧
    (triggerWebhook false emitError webhookURL sessionId dataType data).log = [] :=
  ⟨rfl, rfl, rfl⟩

-- ===================================================================
-- C10: the delivery decision depends only on the payload
-- ===================================================================

/-- A payload without a truthy `message` field makes the try body return
without emitting, on every configuration. -/
theorem triggerWebhookBody_no_message (enableWebHook : Bool)
    (emitError : Option String) (data : JsVal)
    (h : truthy (jsGet data "message") = false) :
    triggerWebhookBody enableWebHook emitError data = .ok none := by
  unfold triggerWebhookBody
  cases enableWebHook with
  | false => rfl
  | true => simp [h]

/-- Anything the try body emits is exactly `data.message`. -/
theorem triggerWebhookBody_ok_shape (enableWebHook : Bool)
    (emitError : Option String) (data : JsVal) (em : Option JsVal)
    (h : triggerWebhookBody enableWebHook emitError data = .ok em) :
    em = none ∨ em = some (jsGet data "message") := by
  unfold triggerWebhookBody at h
  cases enableWebHook <;> cases emitError <;> split_ifs at h <;> simp_all

/-- C10: the delivery decision of `triggerWebhook` depends only on the
payload's shape, not on the `webhookURL`, `sessionId` or `dataType`
arguments; a payload whose `message` field is absent or falsy is delivered
to zero sinks; any delivered value is exactly `payload.message`; and no
HTTP POST is performed on any code path. -/
theorem triggerWebhook_payload_only
    (enableWebHook : Bool) (emitError : Option String)
    (url1 url2 sid1 sid2 dt1 dt2 : String) (data : JsVal) (sinks : List String) :
    (triggerWebhook enableWebHook emitError url1 sid1 dt1 data).emitted =
      (triggerWebhook enableWebHook emitError url2 sid2 dt2 data).emitted ∧
    (truthy (jsGet data "message") = false →
      deliveredTo sinks (triggerWebhook enableWebHook emitError url1 sid1 dt1 data) = []) ∧
    (∀ v, (triggerWebhook enableWebHook emitError url1 sid1 dt1 data).emitted = some v →
      v = jsGet data "message") ∧
    (triggerWebhook enableWebHook emitError url1 sid1 dt1 data).posts = [] := by
  refine ⟨?_, ?_, ?_, ?_⟩
  · unfold triggerWebhook
    cases hbody : triggerWebhookBody enableWebHook emitError data with
    | ok em => rfl
    | error e => rfl
  · intro h
    unfold triggerWebhook
    rw [triggerWebhookBody_no_message enableWebHook emitError data h]
    rfl
  · intro v hv
    cases hbody : triggerWebhookBody enableWebHook emitError data with
    | ok em =>
      have he : (triggerWebhook enableWebHook emitError url1 sid1 dt1 data).emitted = em := by
        unfold triggerWebhook
        rw [hbody]
      rw [he] at hv
      rcases triggerWebhookBody_ok_shape enableWebHook emitError data em hbody with h0 | h0
      · subst h0
        exact Option.noConfusion hv
      · subst h0
        exact (Option.some.inj hv).symm
    | error e =>
      have he : (triggerWebhook enableWebHook emitError url1 sid1 dt1 data).emitted
          = none := by
        unfold triggerWebhook
        rw [hbody]
      rw [he] at hv
      exact Option.noConfusion hv
  · unfold triggerWebhook
    cases hbody : triggerWebhookBody enableWebHook emitError data with
    | ok em => rfl
    | error e => rfl

/-- C10 witness: a payload without a `message` field is dropped identically
under two different webhook URLs, session ids and event kinds, and no HTTP
POST is made. -/
theorem triggerWebhook_payload_only_witness :
    (triggerWebhook true none "http://a" "sA" "message"
        (JsVal.obj [("status", JsVal.str "ok")])).emitted =
      (triggerWebhook true none "http://b" "sB" "presence"
        (JsVal.obj [("status", JsVal.str "ok")])).emitted ∧
    deliveredTo ["sinkD"]
      (triggerWebhook true none "http://a" "sA" "message"
        (JsVal.obj [("status", JsVal.str "ok")])) = [] ∧
    (triggerWebhook true none "http://a" "sA" "message"
        (JsVal.obj [("status", JsVal.str "ok")])).posts = [] :=
  ⟨(triggerWebhook_payload_only true none "http://a" "http://b" "sA" "sB" "message"
      "presence" (JsVal.obj [("status", JsVal.str "ok")]) ["sinkD"]).1,
    (triggerWebhook_payload_only true none "http://a" "http://b" "sA" "sB" "message"
      "presence" (JsVal.obj [("status", JsVal.str "ok")]) ["sinkD"]).2.1 rfl,
    (triggerWebhook_payload_only true none "http://a" "http://b" "sA" "sB" "message"
      "presence" (JsVal.obj [("status", JsVal.str "ok")]) ["sinkD"]).2.2.2⟩
